import Mathlib

/-!
Verification development for the sbomify repository.

The first part embeds the Release lifecycle core (Release entity, the
latest-release synchronizer, release CRUD, artifact links, consolidated
SBOM download).  The implementation module of this core is not part of
the excerpt under verification (only its test suite is), so those
definitions are modelled from the specification text, as marked in their
doc comments.  The second part embeds the Stripe billing webhook
processing from billing/billing_processing.py, which is part of the
excerpt, so those definitions are translated directly from the source.
-/

namespace Sbomify

/-! ### String containment helper (used to state "detail contains ..." claims) -/

/-- Whether the character list `p` is an initial segment of `l`. -/
def leadsWith : List Char → List Char → Bool
  | [], _ => true
  | _ :: _, [] => false
  | a :: as, b :: bs => a == b && leadsWith as bs

/-- Whether the character list `p` occurs contiguously inside `l`. -/
def hasSubstring (p : List Char) : List Char → Bool
  | [] => leadsWith p []
  | c :: cs => leadsWith p (c :: cs) || hasSubstring p cs

/-- Whether the string `pat` occurs contiguously inside `s`. -/
def strContains (s pat : String) : Bool :=
  hasSubstring pat.toList s.toList

/-! ### Data model

Modelled from the spec: the Release entity and its persisted store.
The implementation files (core/models.py, core/apis.py) are not in the
excerpt; only core/tests/test_release_apis.py is.  Fields follow spec
section 3 ("DATA MODEL"). -/

/-- Modelled from the spec: a Release row — name, optional description,
`is_prerelease`, the system-managed `is_latest` flag and a client-settable
creation timestamp, owned by a product (spec section 3). -/
structure Release where
  rid : Nat
  productId : Nat
  name : String
  description : String
  is_prerelease : Bool
  is_latest : Bool
  created_at : Nat
deriving DecidableEq, Repr

/-- Modelled from the spec: a product, owned by a team (spec glossary). -/
structure ProductRec where
  pid : Nat
  teamId : Nat
deriving DecidableEq, Repr

/-- Modelled from the spec: a component, owned by a team (spec glossary). -/
structure ComponentRec where
  cid : Nat
  teamId : Nat
deriving DecidableEq, Repr

/-- Modelled from the spec: an SBOM artifact with its owning component and
format (spec section 3, "Artifact Link" invariants). -/
structure SbomRec where
  sid : Nat
  componentId : Nat
  format : String
  name : String
deriving DecidableEq, Repr

/-- Modelled from the spec: a generic document artifact with its owning
component (spec section 3). -/
structure DocumentRec where
  did : Nat
  componentId : Nat
  name : String
deriving DecidableEq, Repr

/-- Modelled from the spec: an Artifact Link attaching one SBOM or one
document (never both) to a release (spec section 3). -/
structure ReleaseArtifact where
  aid : Nat
  releaseId : Nat
  sbomId : Option Nat
  documentId : Option Nat
deriving DecidableEq, Repr

/-- Modelled from the spec: the persisted store the release operations run
against, with a surrogate-id counter. -/
structure Store where
  products : List ProductRec
  components : List ComponentRec
  sboms : List SbomRec
  documents : List DocumentRec
  releases : List Release
  artifacts : List ReleaseArtifact
  nextId : Nat
deriving DecidableEq, Repr

/-- The empty store. -/
def emptyStore : Store := ⟨[], [], [], [], [], [], 0⟩

/-- Modelled from the spec: the error taxonomy of section 7. -/
inductive ApiError
  | validation (detail : String)
  | forbidden
  | notFound
  | internal (detail : String)
deriving DecidableEq, Repr

/-- Modelled from the spec: HTTP status of each error class (section 7). -/
def statusOf : ApiError → Nat
  | .validation _ => 400
  | .forbidden => 403
  | .notFound => 404
  | .internal _ => 500

/-! ### Latest-Release Synchronizer (spec section 4.1) -/

/-- The predicate selecting the latest release of product `pid`. -/
def isLatestFor (pid : Nat) (r : Release) : Bool :=
  r.productId == pid && r.is_latest

/-- All releases of product `pid` in the store. -/
def releasesOf (s : Store) (pid : Nat) : List Release :=
  s.releases.filter (fun r => r.productId == pid)

/-- Count of `is_latest` rows for product `pid`. -/
def latestCount (s : Store) (pid : Nat) : Nat :=
  s.releases.countP (isLatestFor pid)

/-- The release the synchronizer creates when none exists. -/
def mkLatestRelease (s : Store) (pid now : Nat) : Release :=
  { rid := s.nextId, productId := pid, name := "latest", description := "",
    is_prerelease := false, is_latest := true, created_at := now }

/-- Modelled from the spec: `ensureLatestRelease(product) -> Release`
(section 4.1).  Look up the existing `is_latest` release of the product;
if absent, create one named "latest"; return it. -/
def ensureLatestRelease (s : Store) (pid now : Nat) : Release × Store :=
  match s.releases.find? (isLatestFor pid) with
  | some r => (r, s)
  | none =>
    let r := mkLatestRelease s pid now
    (r, { s with releases := r :: s.releases, nextId := s.nextId + 1 })

/-- `n` sequential invocations of the synchronizer for product `pid`. -/
def ensureN (n : Nat) (s : Store) (pid now : Nat) : Store :=
  match n with
  | 0 => s
  | Nat.succ m => ensureN m (ensureLatestRelease s pid now).2 pid now

/-! ### Lemmas about the synchronizer -/

theorem releasesOf_eq_nil_forall {s : Store} {pid : Nat}
    (h : releasesOf s pid = []) :
    ∀ r ∈ s.releases, (r.productId == pid) = false := by
  intro r hr
  have := List.filter_eq_nil_iff.mp h r hr
  simpa using this

theorem find_latest_eq_none {s : Store} {pid : Nat}
    (h : releasesOf s pid = []) :
    s.releases.find? (isLatestFor pid) = none := by
  rw [List.find?_eq_none]
  intro r hr
  have hp := releasesOf_eq_nil_forall h r hr
  simp [isLatestFor, hp]

theorem ensure_of_empty {s : Store} {pid now : Nat}
    (h : releasesOf s pid = []) :
    ensureLatestRelease s pid now =
      (mkLatestRelease s pid now,
       { s with releases := mkLatestRelease s pid now :: s.releases,
                nextId := s.nextId + 1 }) := by
  unfold ensureLatestRelease
  rw [find_latest_eq_none h]

theorem ensure_noop {s : Store} {pid now : Nat}
    (h : ∃ r ∈ s.releases, isLatestFor pid r = true) :
    (ensureLatestRelease s pid now).2 = s := by
  unfold ensureLatestRelease
  cases hfind : s.releases.find? (isLatestFor pid) with
  | some r => rfl
  | none =>
    exfalso
    obtain ⟨r, hr, hp⟩ := h
    have := List.find?_eq_none.mp hfind r hr
    exact this hp

theorem ensureN_fixed {s : Store} {pid now : Nat}
    (h : ∃ r ∈ s.releases, isLatestFor pid r = true) :
    ∀ m, ensureN m s pid now = s := by
  intro m
  induction m with
  | zero => rfl
  | succ k ih =>
    show ensureN k (ensureLatestRelease s pid now).2 pid now = s
    rw [ensure_noop h]
    exact ih

/-- C1: For every product, invoking the latest-release synchronization any
number of times sequentially on a product with no prior releases leaves the
product with exactly one release, which has `is_latest = true`; the number
of `is_latest` rows never exceeds one. -/
theorem c1_latest_release_sync_idempotent
    (s : Store) (pid now n : Nat)
    (hempty : releasesOf s pid = []) (hn : 1 ≤ n) :
    releasesOf (ensureN n s pid now) pid = [mkLatestRelease s pid now] ∧
    (mkLatestRelease s pid now).is_latest = true ∧
    latestCount (ensureN n s pid now) pid = 1 := by
  obtain ⟨m, rfl⟩ : ∃ m, n = m + 1 := ⟨n - 1, by omega⟩
  set r := mkLatestRelease s pid now with hr
  have hstep : ensureN (m + 1) s pid now =
      ensureN m { s with releases := r :: s.releases, nextId := s.nextId + 1 } pid now := by
    show ensureN m (ensureLatestRelease s pid now).2 pid now = _
    rw [ensure_of_empty hempty]
  have hlatest : isLatestFor pid r = true := by
    simp [isLatestFor, hr, mkLatestRelease]
  have hfix : ensureN m { s with releases := r :: s.releases, nextId := s.nextId + 1 } pid now =
      { s with releases := r :: s.releases, nextId := s.nextId + 1 } :=
    ensureN_fixed ⟨r, by simp, hlatest⟩ m
  rw [hstep, hfix]
  refine ⟨?_, by simp [hr, mkLatestRelease], ?_⟩
  · unfold releasesOf at hempty ⊢
    simp only [List.filter_cons]
    have : (r.productId == pid) = true := by simp [hr, mkLatestRelease]
    rw [this]
    simp [hempty]
  · unfold latestCount
    simp only [List.countP_cons]
    have hz : s.releases.countP (isLatestFor pid) = 0 := by
      rw [List.countP_eq_zero]
      intro a ha
      simp [isLatestFor, releasesOf_eq_nil_forall hempty a ha]
    simp [hz, hlatest]

/-- Witness for C1 at a concrete store: three sequential synchronizations
starting from the empty store yield exactly one latest release. -/
theorem c1_witness :
    releasesOf (ensureN 3 emptyStore 0 0) 0 = [mkLatestRelease emptyStore 0 0] ∧
    (mkLatestRelease emptyStore 0 0).is_latest = true ∧
    latestCount (ensureN 3 emptyStore 0 0) 0 = 1 :=
  c1_latest_release_sync_idempotent emptyStore 0 0 3 rfl (by decide)

/-! ### Release listing (spec section 4.2, `list`) -/

/-- Insert a release in front of the first element it does not precede,
keeping the list ordered by `created_at` descending. -/
def insertByCreated (r : Release) : List Release → List Release
  | [] => [r]
  | q :: qs =>
    if q.created_at ≤ r.created_at then r :: q :: qs
    else q :: insertByCreated r qs

/-- Order releases by creation time, newest first. -/
def sortByCreatedDesc : List Release → List Release
  | [] => []
  | r :: rs => insertByCreated r (sortByCreatedDesc rs)

/-- Modelled from the spec: `list(product)` first invokes the Synchronizer,
then returns all releases of the product ordered by creation time
descending (spec section 4.2). -/
def listReleases (s : Store) (pid now : Nat) : List Release × Store :=
  let s2 := (ensureLatestRelease s pid now).2
  (sortByCreatedDesc (releasesOf s2 pid), s2)

theorem insertByCreated_length (r : Release) (l : List Release) :
    (insertByCreated r l).length = l.length + 1 := by
  induction l with
  | nil => rfl
  | cons q qs ih =>
    unfold insertByCreated
    by_cases h : q.created_at ≤ r.created_at
    · simp [h]
    · simp [h, ih]

theorem sortByCreatedDesc_length (l : List Release) :
    (sortByCreatedDesc l).length = l.length := by
  induction l with
  | nil => rfl
  | cons r rs ih =>
    unfold sortByCreatedDesc
    rw [insertByCreated_length, ih]
    rfl

theorem releasesOf_after_ensure_ne_nil (s : Store) (pid now : Nat) :
    releasesOf (ensureLatestRelease s pid now).2 pid ≠ [] := by
  unfold ensureLatestRelease
  cases hfind : s.releases.find? (isLatestFor pid) with
  | some r =>
    have hmem : r ∈ s.releases := List.mem_of_find?_eq_some hfind
    have hp : isLatestFor pid r = true := List.find?_some hfind
    have hpid : (r.productId == pid) = true := by
      unfold isLatestFor at hp
      simp only [Bool.and_eq_true] at hp
      exact hp.1
    have : r ∈ releasesOf s pid := by
      unfold releasesOf
      exact List.mem_filter.mpr ⟨hmem, hpid⟩
    exact List.ne_nil_of_mem this
  | none =>
    have : mkLatestRelease s pid now ∈
        releasesOf { s with releases := mkLatestRelease s pid now :: s.releases,
                            nextId := s.nextId + 1 } pid := by
      unfold releasesOf
      refine List.mem_filter.mpr ⟨by simp, ?_⟩
      simp [mkLatestRelease]
    exact List.ne_nil_of_mem this

/-- C2: `listReleases` never returns an empty list; on a product with no
prior releases the first call creates exactly one release, named "latest"
with `is_latest = true`, and returns exactly that release. -/
theorem c2_list_releases_never_empty (s : Store) (pid now : Nat) :
    (listReleases s pid now).1 ≠ [] ∧
    (releasesOf s pid = [] →
      (listReleases s pid now).1 = [mkLatestRelease s pid now] ∧
      (mkLatestRelease s pid now).name = "latest" ∧
      (mkLatestRelease s pid now).is_latest = true ∧
      releasesOf (listReleases s pid now).2 pid = [mkLatestRelease s pid now]) := by
  constructor
  · unfold listReleases
    intro hcontra
    have hlen := congrArg List.length hcontra
    rw [sortByCreatedDesc_length] at hlen
    exact releasesOf_after_ensure_ne_nil s pid now (List.length_eq_zero.mp hlen)
  · intro hempty
    have hfilter : releasesOf (ensureLatestRelease s pid now).2 pid =
        [mkLatestRelease s pid now] := by
      rw [ensure_of_empty hempty]
      unfold releasesOf at hempty ⊢
      simp only [List.filter_cons]
      have : ((mkLatestRelease s pid now).productId == pid) = true := by
        simp [mkLatestRelease]
      rw [this]
      simp [hempty]
    have h1 : (listReleases s pid now).1 = [mkLatestRelease s pid now] := by
      show sortByCreatedDesc (releasesOf (ensureLatestRelease s pid now).2 pid) =
        [mkLatestRelease s pid now]
      rw [hfilter]
      rfl
    have h2 : releasesOf (listReleases s pid now).2 pid = [mkLatestRelease s pid now] := by
      show releasesOf (ensureLatestRelease s pid now).2 pid = [mkLatestRelease s pid now]
      exact hfilter
    exact ⟨h1, rfl, rfl, h2⟩

/-- Witness for C2 at the empty store: the listing call on a product with
no releases returns exactly the auto-created latest release. -/
theorem c2_witness :
    (listReleases emptyStore 0 0).1 ≠ [] ∧
    (listReleases emptyStore 0 0).1 = [mkLatestRelease emptyStore 0 0] ∧
    (mkLatestRelease emptyStore 0 0).name = "latest" ∧
    (mkLatestRelease emptyStore 0 0).is_latest = true :=
  ⟨(c2_list_releases_never_empty emptyStore 0 0).1,
   ((c2_list_releases_never_empty emptyStore 0 0).2 rfl).1,
   ((c2_list_releases_never_empty emptyStore 0 0).2 rfl).2.1,
   ((c2_list_releases_never_empty emptyStore 0 0).2 rfl).2.2.1⟩

/-! ### Release CRUD (spec section 4.2) -/

/-- The error message for creating a release with the reserved name. -/
def msgReservedLatest : String :=
  "Cannot create release with name 'latest'. The latest release is automatically managed by the system."

/-- The error message for a duplicate release name. -/
def msgDuplicate (nm : String) : String :=
  "A release with the name '" ++ nm ++ "' already exists for this product."

/-- The error message for mutating the system-managed latest release. -/
def msgAutoManaged : String :=
  "The latest release is automatically managed and cannot be modified or deleted."

/-- Whether some release of product `pid` other than release `rid` already
carries the name `nm`. -/
def nameTaken (s : Store) (pid rid : Nat) (nm : String) : Bool :=
  s.releases.any (fun q => q.productId == pid && !(q.rid == rid) && q.name == nm)

/-- Modelled from the spec: `create(product, name, description?,
is_prerelease?)` fails with ValidationError when the name is the reserved
"latest" or when `(product, name)` already exists; otherwise returns a new
release with `is_latest = false` (spec section 4.2). -/
def createRelease (s : Store) (pid : Nat) (nm descr : String) (pre : Bool) (now : Nat) :
    Except ApiError Release × Store :=
  if nm == "latest" then
    (Except.error (ApiError.validation msgReservedLatest), s)
  else if s.releases.any (fun r => r.productId == pid && r.name == nm) then
    (Except.error (ApiError.validation (msgDuplicate nm)), s)
  else
    let r : Release :=
      { rid := s.nextId, productId := pid, name := nm, description := descr,
        is_prerelease := pre, is_latest := false, created_at := now }
    (Except.ok r, { s with releases := r :: s.releases, nextId := s.nextId + 1 })

/-- Look up a release of product `pid` by its id. -/
def findRelease (s : Store) (pid rid : Nat) : Option Release :=
  s.releases.find? (fun r => r.rid == rid && r.productId == pid)

/-- Replace the release with id `rid` by `r2` in the store. -/
def replaceRelease (s : Store) (rid : Nat) (r2 : Release) : Store :=
  { s with releases := s.releases.map (fun q => if q.rid == rid then r2 else q) }

/-- The mutable fields of a full update (spec section 4.2, `update`). -/
structure UpdateFields where
  name : String
  description : String
  is_prerelease : Bool
  created_at : Option Nat
deriving DecidableEq, Repr

/-- Modelled from the spec: `update(release, fields)` fully replaces the
mutable fields; fails with ValidationError when the target is the
system-managed latest release, or when the new name collides with another
release of the same product (spec section 4.2). -/
def updateRelease (s : Store) (pid rid : Nat) (f : UpdateFields) :
    Except ApiError Release × Store :=
  match findRelease s pid rid with
  | none => (Except.error ApiError.notFound, s)
  | some r =>
    if r.is_latest then
      (Except.error (ApiError.validation msgAutoManaged), s)
    else if nameTaken s pid rid f.name then
      (Except.error (ApiError.validation (msgDuplicate f.name)), s)
    else
      let r2 : Release :=
        { r with name := f.name, description := f.description,
                 is_prerelease := f.is_prerelease,
                 created_at := f.created_at.getD r.created_at }
      (Except.ok r2, replaceRelease s rid r2)

/-- The optional fields of a partial update (spec section 4.2, `patch`). -/
structure PatchFields where
  name : Option String
  description : Option String
  is_prerelease : Option Bool
deriving DecidableEq, Repr

/-- Modelled from the spec: `patch(release, fields)` partially updates with
the same latest-guard and collision rules as `update`; a no-op patch
succeeds without a duplicate-name error and without a persistence write
(spec section 4.2). -/
def patchRelease (s : Store) (pid rid : Nat) (f : PatchFields) :
    Except ApiError Release × Store :=
  match findRelease s pid rid with
  | none => (Except.error ApiError.notFound, s)
  | some r =>
    if r.is_latest then
      (Except.error (ApiError.validation msgAutoManaged), s)
    else
      let newName := f.name.getD r.name
      if !(newName == r.name) && nameTaken s pid rid newName then
        (Except.error (ApiError.validation (msgDuplicate newName)), s)
      else
        let r2 : Release :=
          { r with name := newName,
                   description := f.description.getD r.description,
                   is_prerelease := f.is_prerelease.getD r.is_prerelease }
        if r2 = r then (Except.ok r, s)
        else (Except.ok r2, replaceRelease s rid r2)

/-- Modelled from the spec: `delete(release)` fails with ValidationError
when the target is the system-managed latest release; otherwise removes the
release and cascades removal of its artifact links (spec section 4.2). -/
def deleteRelease (s : Store) (pid rid : Nat) : Except ApiError Unit × Store :=
  match findRelease s pid rid with
  | none => (Except.error ApiError.notFound, s)
  | some r =>
    if r.is_latest then
      (Except.error (ApiError.validation msgAutoManaged), s)
    else
      (Except.ok (),
       { s with releases := s.releases.filter (fun q => !(q.rid == rid)),
                artifacts := s.artifacts.filter (fun a => !(a.releaseId == rid)) })

/-- C3: creating a release named "latest" fails with a 400 ValidationError
whose detail contains the reserved-name message and leaves the store
unchanged; creating with a fresh non-reserved name succeeds and yields a
release with `is_latest = false`. -/
theorem c3_create_reserved_name_rejected
    (s : Store) (pid : Nat) (nm descr : String) (pre : Bool) (now : Nat) :
    (createRelease s pid "latest" descr pre now =
       (Except.error (ApiError.validation msgReservedLatest), s) ∧
     strContains msgReservedLatest "Cannot create release with name 'latest'" = true ∧
     statusOf (ApiError.validation msgReservedLatest) = 400) ∧
    ((nm == "latest") = false →
     s.releases.any (fun r => r.productId == pid && r.name == nm) = false →
     ∃ r, (createRelease s pid nm descr pre now).1 = Except.ok r ∧
       r.is_latest = false ∧ r.name = nm ∧ r.productId = pid) := by
  constructor
  · refine ⟨?_, by decide, rfl⟩
    unfold createRelease
    simp
  · intro h1 h2
    refine ⟨{ rid := s.nextId, productId := pid, name := nm, description := descr,
              is_prerelease := pre, is_latest := false, created_at := now }, ?_, rfl, rfl, rfl⟩
    unfold createRelease
    simp [h1, h2]

/-- Witness for C3: the reserved name is rejected on the empty store and a
fresh name is accepted. -/
theorem c3_witness :
    (createRelease emptyStore 0 "latest" "" false 0 =
       (Except.error (ApiError.validation msgReservedLatest), emptyStore) ∧
     strContains msgReservedLatest "Cannot create release with name 'latest'" = true ∧
     statusOf (ApiError.validation msgReservedLatest) = 400) ∧
    (∃ r, (createRelease emptyStore 0 "v1.0.0" "" false 0).1 = Except.ok r ∧
       r.is_latest = false ∧ r.name = "v1.0.0" ∧ r.productId = 0) :=
  ⟨(c3_create_reserved_name_rejected emptyStore 0 "v1.0.0" "" false 0).1,
   (c3_create_reserved_name_rejected emptyStore 0 "v1.0.0" "" false 0).2 (by decide) rfl⟩

/-- C4: update and delete of the system-managed latest release both fail
with a 400 ValidationError whose detail contains "automatically managed",
leaving the store unchanged; delete of any other release succeeds and
removes it. -/
theorem c4_latest_release_guard
    (s : Store) (pid rid : Nat) (f : UpdateFields) (r : Release)
    (h : findRelease s pid rid = some r) :
    (r.is_latest = true →
      updateRelease s pid rid f = (Except.error (ApiError.validation msgAutoManaged), s) ∧
      deleteRelease s pid rid = (Except.error (ApiError.validation msgAutoManaged), s) ∧
      strContains msgAutoManaged "automatically managed" = true ∧
      statusOf (ApiError.validation msgAutoManaged) = 400) ∧
    (r.is_latest = false →
      (deleteRelease s pid rid).1 = Except.ok () ∧
      findRelease (deleteRelease s pid rid).2 pid rid = none) := by
  constructor
  · intro hl
    refine ⟨?_, ?_, by decide, rfl⟩
    · unfold updateRelease
      rw [h]
      simp [hl]
    · unfold deleteRelease
      rw [h]
      simp [hl]
  · intro hl
    have hdel : deleteRelease s pid rid =
        (Except.ok (),
         { s with releases := s.releases.filter (fun q => !(q.rid == rid)),
                  artifacts := s.artifacts.filter (fun a => !(a.releaseId == rid)) }) := by
      unfold deleteRelease
      rw [h]
      simp [hl]
    rw [hdel]
    refine ⟨rfl, ?_⟩
    unfold findRelease
    rw [List.find?_eq_none]
    intro q hq
    have hmem := List.mem_filter.mp hq
    have hne : (q.rid == rid) = false := by
      have := hmem.2
      simp at this
      simp [this]
    simp [hne]

/-- A store holding a system-managed latest release and a normal release
of the same product, to witness C4. -/
def storeC4 : Store :=
  { emptyStore with
    releases := [⟨0, 0, "latest", "", false, true, 0⟩,
                 ⟨1, 0, "v1.0.0", "", false, false, 0⟩],
    nextId := 2 }

/-- A concrete update payload used by the C4 witness. -/
def updC4 : UpdateFields := ⟨"v2.0.0", "", false, none⟩

/-- Witness for C4: updating or deleting the latest release of `storeC4`
fails and changes nothing, while deleting the normal release succeeds. -/
theorem c4_witness :
    (updateRelease storeC4 0 0 updC4 =
       (Except.error (ApiError.validation msgAutoManaged), storeC4) ∧
     deleteRelease storeC4 0 0 =
       (Except.error (ApiError.validation msgAutoManaged), storeC4) ∧
     strContains msgAutoManaged "automatically managed" = true ∧
     statusOf (ApiError.validation msgAutoManaged) = 400) ∧
    ((deleteRelease storeC4 0 1).1 = Except.ok () ∧
     findRelease (deleteRelease storeC4 0 1).2 0 1 = none) :=
  ⟨(c4_latest_release_guard storeC4 0 0 updC4 ⟨0, 0, "latest", "", false, true, 0⟩ rfl).1 rfl,
   (c4_latest_release_guard storeC4 0 1 updC4 ⟨1, 0, "v1.0.0", "", false, false, 0⟩ rfl).2 rfl⟩

/-- C5: patching a non-latest release with field values identical to its
current stored values succeeds, raises no duplicate-name error, and leaves
both the release and the store unchanged. -/
theorem c5_noop_patch_unchanged
    (s : Store) (pid rid : Nat) (r : Release)
    (h : findRelease s pid rid = some r) (hl : r.is_latest = false) :
    patchRelease s pid rid
        ⟨some r.name, some r.description, some r.is_prerelease⟩ = (Except.ok r, s) := by
  unfold patchRelease
  rw [h]
  simp only [hl, Bool.false_eq_true, if_false, Option.getD_some]
  have hname : (!(r.name == r.name)) = false := by simp
  rw [hname]
  simp only [Bool.false_and, Bool.false_eq_true, if_false]
  split
  · rfl
  · next hne =>
    exfalso
    apply hne
    cases r
    simp_all

/-- Witness for C5: a no-op patch of the normal release in `storeC4`
returns the release unchanged and does not touch the store. -/
theorem c5_witness :
    patchRelease storeC4 0 1 ⟨some "v1.0.0", some "", some false⟩ =
      (Except.ok ⟨1, 0, "v1.0.0", "", false, false, 0⟩, storeC4) :=
  c5_noop_patch_unchanged storeC4 0 1 ⟨1, 0, "v1.0.0", "", false, false, 0⟩ rfl rfl

/-! ### Artifact attach (spec section 4.3) and download (section 4.4) -/

/-- Look up an SBOM by id. -/
def sbomById (s : Store) (sid : Nat) : Option SbomRec :=
  s.sboms.find? (fun x => x.sid == sid)

/-- Look up a component by id. -/
def componentById (s : Store) (cid : Nat) : Option ComponentRec :=
  s.components.find? (fun c => c.cid == cid)

/-- Look up a product by id. -/
def productById (s : Store) (pid : Nat) : Option ProductRec :=
  s.products.find? (fun p => p.pid == pid)

/-- Whether the existing artifact link `a` collides with attaching the SBOM
`sb` to release `rid`: same release, and the linked SBOM comes from the same
component with the same format (spec section 3, Artifact Link invariant). -/
def linkConflicts (s : Store) (rid : Nat) (sb : SbomRec) (a : ReleaseArtifact) : Bool :=
  a.releaseId == rid &&
    (match a.sbomId.bind (sbomById s) with
     | some ex => ex.componentId == sb.componentId && ex.format == sb.format
     | none => false)

/-- The error message for a duplicate SBOM format within a release. -/
def msgDupFormat (fmt : String) : String :=
  "This release already contains an SBOM of format '" ++ fmt ++ "' from this component."

/-- Modelled from the spec: attaching an SBOM to a release (section 4.3).
Fails with Forbidden when the SBOM's component belongs to a different team
than the release's product; fails with ValidationError when the release
already holds an SBOM of the same format from the same component; otherwise
creates the artifact link. -/
def addSbomToRelease (s : Store) (pid rid sbomId : Nat) :
    Except ApiError ReleaseArtifact × Store :=
  match findRelease s pid rid with
  | none => (Except.error ApiError.notFound, s)
  | some _ =>
    match sbomById s sbomId with
    | none => (Except.error ApiError.notFound, s)
    | some sb =>
      match componentById s sb.componentId, productById s pid with
      | some comp, some prod =>
        if !(comp.teamId == prod.teamId) then
          (Except.error ApiError.forbidden, s)
        else if s.artifacts.any (linkConflicts s rid sb) then
          (Except.error (ApiError.validation (msgDupFormat sb.format)), s)
        else
          let a : ReleaseArtifact := ⟨s.nextId, rid, some sbomId, none⟩
          (Except.ok a, { s with artifacts := a :: s.artifacts, nextId := s.nextId + 1 })
      | _, _ => (Except.error ApiError.notFound, s)

/-- All artifact links of release `rid`. -/
def artifactsOf (s : Store) (rid : Nat) : List ReleaseArtifact :=
  s.artifacts.filter (fun a => a.releaseId == rid)

/-- The error message of the consolidated-SBOM download failure. -/
def msgSbomGen : String := "Error generating release SBOM"

/-- Modelled from the spec: the consolidated-SBOM download calls the
external package builder and streams the generated file back; with zero
artifacts no package can be synthesized, so it fails with InternalError
(spec section 4.4).  The generator itself is out of scope, so a successful
build is represented by an abstract file name. -/
def downloadReleaseSbom (s : Store) (pid rid : Nat) : Except ApiError String :=
  match findRelease s pid rid with
  | none => Except.error ApiError.notFound
  | some r =>
    match artifactsOf s rid with
    | [] => Except.error (ApiError.internal msgSbomGen)
    | _ :: _ => Except.ok (r.name ++ ".cdx.json")

theorem leadsWith_append {p x : List Char} (y : List Char)
    (h : leadsWith p x = true) : leadsWith p (x ++ y) = true := by
  induction p generalizing x with
  | nil => rfl
  | cons a as ih =>
    cases x with
    | nil => exact absurd h (by simp [leadsWith])
    | cons b bs =>
      rw [List.cons_append]
      unfold leadsWith at h ⊢
      simp only [Bool.and_eq_true] at h ⊢
      exact ⟨h.1, ih h.2⟩

theorem hasSubstring_append_left {p x : List Char} (y : List Char)
    (h : hasSubstring p x = true) : hasSubstring p (x ++ y) = true := by
  induction x with
  | nil =>
    unfold hasSubstring at h
    cases y with
    | nil => exact h
    | cons c cs =>
      unfold hasSubstring
      cases p with
      | nil => rfl
      | cons a as => exact absurd h (by simp [leadsWith])
  | cons b bs ih =>
    rw [List.cons_append]
    unfold hasSubstring at h ⊢
    simp only [Bool.or_eq_true] at h ⊢
    cases h with
    | inl hlead =>
      have := leadsWith_append y hlead
      rw [List.cons_append] at this
      exact Or.inl this
    | inr htail => exact Or.inr (ih htail)

theorem strContains_append_left {x : String} (y : String) {pat : String}
    (h : strContains x pat = true) : strContains (x ++ y) pat = true := by
  unfold strContains at h ⊢
  have hdata : (x ++ y).toList = x.toList ++ y.toList := by
    simp [String.toList]
  rw [hdata]
  exact hasSubstring_append_left y.toList h

theorem msgDupFormat_has_phrase (fmt : String) :
    strContains (msgDupFormat fmt) "already contains an SBOM of format" = true := by
  unfold msgDupFormat
  have h1 : strContains "This release already contains an SBOM of format '"
      "already contains an SBOM of format" = true := by decide
  have := strContains_append_left (fmt ++ "' from this component.") h1
  rw [← String.append_assoc] at this
  exact this

/-- C6: attaching an SBOM to a release that already links an SBOM of the
same format from the same component fails with a 400 ValidationError whose
detail contains "already contains an SBOM of format", and the store (hence
the set of artifact links) is unchanged. -/
theorem c6_duplicate_format_rejected
    (s : Store) (pid rid newId : Nat) (r : Release) (sb ex : SbomRec)
    (comp : ComponentRec) (prod : ProductRec) (a : ReleaseArtifact)
    (hr : findRelease s pid rid = some r)
    (hsb : sbomById s newId = some sb)
    (hc : componentById s sb.componentId = some comp)
    (hp : productById s pid = some prod)
    (hteam : (comp.teamId == prod.teamId) = true)
    (hmem : a ∈ s.artifacts)
    (harel : a.releaseId = rid)
    (hasb : a.sbomId = some ex.sid)
    (hexid : sbomById s ex.sid = some ex)
    (hsamec : ex.componentId = sb.componentId)
    (hsamef : ex.format = sb.format) :
    addSbomToRelease s pid rid newId =
      (Except.error (ApiError.validation (msgDupFormat sb.format)), s) ∧
    strContains (msgDupFormat sb.format) "already contains an SBOM of format" = true ∧
    statusOf (ApiError.validation (msgDupFormat sb.format)) = 400 := by
  have hconf : s.artifacts.any (linkConflicts s rid sb) = true := by
    rw [List.any_eq_true]
    refine ⟨a, hmem, ?_⟩
    unfold linkConflicts
    rw [harel, hasb]
    simp only [Option.some_bind, hexid, hsamec, hsamef]
    simp
  refine ⟨?_, msgDupFormat_has_phrase sb.format, rfl⟩
  unfold addSbomToRelease
  rw [hr, hsb]
  simp [hc, hp, hteam, hconf]

/-- C7: attaching an SBOM whose owning component belongs to a different
team than the release's product fails with 403 Forbidden and leaves the
store (hence the set of artifact links) unchanged. -/
theorem c7_cross_team_attach_forbidden
    (s : Store) (pid rid newId : Nat) (r : Release) (sb : SbomRec)
    (comp : ComponentRec) (prod : ProductRec)
    (hr : findRelease s pid rid = some r)
    (hsb : sbomById s newId = some sb)
    (hc : componentById s sb.componentId = some comp)
    (hp : productById s pid = some prod)
    (hteam : (comp.teamId == prod.teamId) = false) :
    addSbomToRelease s pid rid newId = (Except.error ApiError.forbidden, s) ∧
    statusOf ApiError.forbidden = 403 := by
  refine ⟨?_, rfl⟩
  unfold addSbomToRelease
  rw [hr, hsb]
  simp [hc, hp, hteam]

/-- C8: downloading the consolidated SBOM of a release with zero artifact
links fails with a 500 InternalError whose detail contains "Error
generating release SBOM"; no file stream is ever returned for such a
release. -/
theorem c8_empty_release_download_fails
    (s : Store) (pid rid : Nat) (r : Release)
    (hr : findRelease s pid rid = some r)
    (hempty : artifactsOf s rid = []) :
    downloadReleaseSbom s pid rid = Except.error (ApiError.internal msgSbomGen) ∧
    strContains msgSbomGen "Error generating release SBOM" = true ∧
    statusOf (ApiError.internal msgSbomGen) = 500 ∧
    ∀ f, downloadReleaseSbom s pid rid ≠ Except.ok f := by
  have hdl : downloadReleaseSbom s pid rid = Except.error (ApiError.internal msgSbomGen) := by
    unfold downloadReleaseSbom
    rw [hr, hempty]
  refine ⟨hdl, by decide, rfl, ?_⟩
  intro f hcontra
  rw [hdl] at hcontra
  exact Except.noConfusion hcontra

/-- A store with one product, one component of the same team, two SBOMs of
the same format from that component, one release, and one artifact link to
the first SBOM, to witness C6. -/
def storeC6 : Store :=
  { products := [⟨0, 10⟩], components := [⟨1, 10⟩],
    sboms := [⟨2, 1, "cyclonedx", "SBOM 1"⟩, ⟨3, 1, "cyclonedx", "SBOM 2"⟩],
    documents := [], releases := [⟨4, 0, "v1.0.0", "", false, false, 0⟩],
    artifacts := [⟨5, 4, some 2, none⟩], nextId := 6 }

/-- Witness for C6: attaching the second cyclonedx SBOM of the same
component to the release of `storeC6` is rejected as a duplicate format. -/
theorem c6_witness :
    addSbomToRelease storeC6 0 4 3 =
      (Except.error (ApiError.validation (msgDupFormat "cyclonedx")), storeC6) ∧
    strContains (msgDupFormat "cyclonedx") "already contains an SBOM of format" = true ∧
    statusOf (ApiError.validation (msgDupFormat "cyclonedx")) = 400 :=
  c6_duplicate_format_rejected storeC6 0 4 3
    ⟨4, 0, "v1.0.0", "", false, false, 0⟩
    ⟨3, 1, "cyclonedx", "SBOM 2"⟩ ⟨2, 1, "cyclonedx", "SBOM 1"⟩
    ⟨1, 10⟩ ⟨0, 10⟩ ⟨5, 4, some 2, none⟩
    rfl rfl rfl rfl rfl (by decide) rfl rfl rfl rfl rfl

/-- A store like `storeC6` but whose component belongs to another team, to
witness C7. -/
def storeC7 : Store :=
  { products := [⟨0, 10⟩], components := [⟨1, 99⟩],
    sboms := [⟨2, 1, "cyclonedx", "SBOM 1"⟩],
    documents := [], releases := [⟨4, 0, "v1.0.0", "", false, false, 0⟩],
    artifacts := [], nextId := 5 }

/-- Witness for C7: attaching the SBOM of the other team's component to the
release of `storeC7` is forbidden. -/
theorem c7_witness :
    addSbomToRelease storeC7 0 4 2 = (Except.error ApiError.forbidden, storeC7) ∧
    statusOf ApiError.forbidden = 403 :=
  c7_cross_team_attach_forbidden storeC7 0 4 2
    ⟨4, 0, "v1.0.0", "", false, false, 0⟩
    ⟨2, 1, "cyclonedx", "SBOM 1"⟩ ⟨1, 99⟩ ⟨0, 10⟩
    rfl rfl rfl rfl rfl

/-- Witness for C8: the release of `storeC7` has no artifact links, so the
download fails with the internal error. -/
theorem c8_witness :
    downloadReleaseSbom storeC7 0 4 = Except.error (ApiError.internal msgSbomGen) ∧
    strContains msgSbomGen "Error generating release SBOM" = true ∧
    statusOf (ApiError.internal msgSbomGen) = 500 :=
  ⟨(c8_empty_release_download_fails storeC7 0 4
      ⟨4, 0, "v1.0.0", "", false, false, 0⟩ rfl rfl).1,
   (c8_empty_release_download_fails storeC7 0 4
      ⟨4, 0, "v1.0.0", "", false, false, 0⟩ rfl rfl).2.1,
   (c8_empty_release_download_fails storeC7 0 4
      ⟨4, 0, "v1.0.0", "", false, false, 0⟩ rfl rfl).2.2.1⟩

/-! ### Billing webhook processing (billing/billing_processing.py)

These definitions are translated from the source in the excerpt. -/

/-- The Python exception values that can flow through the billing webhook
handlers: the provider exception classes of the stripe.error module, the
internal StripeError hierarchy defined in billing_processing.py, and any
other Exception. -/
inductive PyExc
  | cardError (msg userMessage : String)
  | rateLimitError (msg : String)
  | invalidRequestError (msg : String)
  | authenticationError (msg : String)
  | apiConnectionError (msg : String)
  | stripeBaseError (msg : String)
  | appStripeError (msg : String)
  | appStripeWebhookError (msg : String)
  | appStripeSubscriptionError (msg : String)
  | otherError (msg : String)
deriving DecidableEq, Repr

/-- The `str(e)` rendering of an exception. -/
def excStr : PyExc → String
  | .cardError m _ => m
  | .rateLimitError m => m
  | .invalidRequestError m => m
  | .authenticationError m => m
  | .apiConnectionError m => m
  | .stripeBaseError m => m
  | .appStripeError m => m
  | .appStripeWebhookError m => m
  | .appStripeSubscriptionError m => m
  | .otherError m => m

/-- Whether the exception is a raw provider (stripe.error.*) exception. -/
def isRawProviderExc : PyExc → Bool
  | .cardError _ _ => true
  | .rateLimitError _ => true
  | .invalidRequestError _ => true
  | .authenticationError _ => true
  | .apiConnectionError _ => true
  | .stripeBaseError _ => true
  | _ => false

/-- Whether the exception belongs to the internal StripeError hierarchy of
billing_processing.py (StripeError and its two subclasses). -/
def isInternalStripeError : PyExc → Bool
  | .appStripeError _ => true
  | .appStripeWebhookError _ => true
  | .appStripeSubscriptionError _ => true
  | _ => false

/-- The handle_stripe_error decorator (billing_processing.py lines 60-87):
runs the wrapped function; on any exception, logs it and raises an internal
StripeError with a branch-specific message.  The second component is the
list of log records the wrapper emits. -/
def handle_stripe_error {α β : Type} (f : α → Except PyExc β) (a : α) :
    Except PyExc β × List String :=
  match f a with
  | Except.ok b => (Except.ok b, [])
  | Except.error e =>
    match e with
    | .cardError m um =>
      (Except.error (.appStripeError ("Card error: " ++ um)), ["Card error: " ++ m])
    | .rateLimitError m =>
      (Except.error (.appStripeError "Too many requests made to Stripe API"),
       ["Rate limit error: " ++ m])
    | .invalidRequestError m =>
      (Except.error (.appStripeError ("Invalid request: " ++ m)),
       ["Invalid request error: " ++ m])
    | .authenticationError m =>
      (Except.error (.appStripeError "Authentication with Stripe failed"),
       ["Authentication error: " ++ m])
    | .apiConnectionError m =>
      (Except.error (.appStripeError "Could not connect to Stripe API"),
       ["API connection error: " ++ m])
    | .stripeBaseError m =>
      (Except.error (.appStripeError ("Stripe error: " ++ m)), ["Stripe error: " ++ m])
    | e2 =>
      (Except.error (.appStripeError ("Unexpected error: " ++ excStr e2)),
       ["Unexpected error: " ++ excStr e2])

/-- C9: whenever a function wrapped by handle_stripe_error raises, the
wrapper logs the error and the exception that escapes the wrapper belongs
to the internal StripeError hierarchy; a raw stripe.error exception never
propagates out of the wrapper. -/
theorem c9_wrapper_never_leaks_provider_errors
    {α β : Type} (f : α → Except PyExc β) (a : α) (e : PyExc) (logs : List String)
    (h : handle_stripe_error f a = (Except.error e, logs)) :
    isInternalStripeError e = true ∧ isRawProviderExc e = false ∧ logs ≠ [] := by
  unfold handle_stripe_error at h
  cases hf : f a with
  | ok b =>
    rw [hf] at h
    exact absurd h (by simp)
  | error e0 =>
    rw [hf] at h
    cases e0 <;>
      (simp only [Prod.mk.injEq, Except.error.injEq] at h
       obtain ⟨he, hlogs⟩ := h
       subst he
       subst hlogs
       exact ⟨rfl, rfl, by simp⟩)

/-- Witness for C9: wrapping a function that raises a raw stripe CardError
yields an internal StripeError and a log line. -/
theorem c9_witness :
    isInternalStripeError (PyExc.appStripeError ("Card error: " ++ "declined")) = true ∧
    isRawProviderExc (PyExc.appStripeError ("Card error: " ++ "declined")) = false ∧
    (["Card error: " ++ "card was declined"] : List String) ≠ [] :=
  c9_wrapper_never_leaks_provider_errors
    (fun _ : Unit => (Except.error (PyExc.cardError "card was declined" "declined") :
      Except PyExc Nat))
    () (PyExc.appStripeError ("Card error: " ++ "declined"))
    ["Card error: " ++ "card was declined"] rfl

/-! ### handle_subscription_updated (billing_processing.py lines 146-256) -/

/-- The result of datetime.fromisoformat on a stored last_updated string:
either a parsed timestamp (seconds) or a parse failure (ValueError or
TypeError in the source). -/
inductive ParsedTime
  | ok (t : Int)
  | invalid
deriving DecidableEq, Repr

/-- The team.billing_plan_limits JSON dict, with the keys the handler reads
and writes. -/
structure BillingLimits where
  stripe_subscription_id : Option String := none
  stripe_customer_id : Option String := none
  subscription_status : Option String := none
  trial_end : Option Int := none
  is_trial : Option Bool := none
  last_updated : Option ParsedTime := none
  max_products : Option Nat := none
  max_projects : Option Nat := none
  max_components : Option Nat := none
deriving DecidableEq, Repr

/-- A team row: key, billing plan key, billing_plan_limits, and the owner
members the notification helpers iterate over. -/
structure TeamRec where
  key : String
  billing_plan : Option String
  limits : BillingLimits
  owners : List String
deriving DecidableEq, Repr

/-- The fields of the Stripe subscription payload the handler reads.
`customer` is optional, mirroring the hasattr check; `hasItems` mirrors
`subscription.items.data` being nonempty. -/
structure SubscriptionEvent where
  id : String
  customer : Option String
  status : String
  trial_end : Option Int
  hasItems : Bool
deriving DecidableEq, Repr

/-- A BillingPlan row (key, display name and limits). -/
structure BillingPlanRec where
  key : String
  name : String
  max_products : Option Nat
  max_projects : Option Nat
  max_components : Option Nat
deriving DecidableEq, Repr

/-- The environment of the handler: the "business" BillingPlan row if it
exists, and settings.TRIAL_ENDING_NOTIFICATION_DAYS. -/
structure BillingEnv where
  businessPlan : Option BillingPlanRec
  trialEndingNotificationDays : Int
deriving Repr

/-- The owner email notifications the handler can send. -/
inductive BillingNotif
  | paymentPastDue (teamKey owner : String)
  | paymentSucceeded (teamKey owner : String)
  | subscriptionCancelled (teamKey owner : String)
  | paymentFailed (teamKey owner : String)
  | trialEnding (teamKey owner : String) (days : Int)
deriving DecidableEq, Repr

/-- Team lookup of lines 150-155: first by stripe_subscription_id, then —
when the payload has a customer attribute — by stripe_customer_id. -/
def findTeamForSubscription (teams : List TeamRec) (sub : SubscriptionEvent) :
    Option TeamRec :=
  match teams.find? (fun t => t.limits.stripe_subscription_id == some sub.id) with
  | some t => some t
  | none =>
    match sub.customer with
    | some c => teams.find? (fun t => t.limits.stripe_customer_id == some c)
    | none => none

/-- team.save(): persist the mutated team row, matching rows by key. -/
def saveTeam (teams : List TeamRec) (t : TeamRec) : List TeamRec :=
  teams.map (fun q => if q.key == t.key then t else q)

/-- The status-transition notifications of lines 210-238. -/
def statusTransitionNotifs (team : TeamRec) (oldStatus : Option String)
    (newStatus : String) : List BillingNotif :=
  if newStatus == "past_due" && oldStatus == some "active" then
    team.owners.map (fun o => BillingNotif.paymentPastDue team.key o)
  else if newStatus == "active" && oldStatus == some "past_due" then
    team.owners.map (fun o => BillingNotif.paymentSucceeded team.key o)
  else if newStatus == "canceled" then
    team.owners.map (fun o => BillingNotif.subscriptionCancelled team.key o)
  else if newStatus == "incomplete" || newStatus == "incomplete_expired" then
    team.owners.map (fun o => BillingNotif.paymentFailed team.key o)
  else []

/-- handle_subscription_updated (lines 146-256): find the team; skip the
event entirely when billing_plan_limits.last_updated parses to a timestamp
less than 60 seconds old; otherwise update status, trial fields and the
last_updated stamp, switch the team to the business plan when the
subscription has items and that plan exists, send the status-transition
notifications, save, and send trial-ending notifications when a trial ends
within the configured number of days (timedelta.days floors, hence fdiv).
Returns the new team table and the notifications sent. -/
def handle_subscription_updated (env : BillingEnv) (teams : List TeamRec)
    (sub : SubscriptionEvent) (now : Int) : List TeamRec × List BillingNotif :=
  match findTeamForSubscription teams sub with
  | none => (teams, [])
  | some team =>
    let recentSkip : Bool :=
      match team.limits.last_updated with
      | some (ParsedTime.ok t) => decide (now - t < 60)
      | _ => false
    if recentSkip then (teams, [])
    else
      let oldStatus := team.limits.subscription_status
      let newStatus := sub.status
      let limits1 : BillingLimits :=
        { team.limits with
          subscription_status := some newStatus,
          trial_end := sub.trial_end,
          is_trial := some (sub.status == "trialing"),
          last_updated := some (ParsedTime.ok now) }
      let planAndLimits : Option String × BillingLimits :=
        if sub.hasItems then
          match env.businessPlan with
          | some p =>
            (some p.key,
             { limits1 with
               max_products := p.max_products,
               max_projects := p.max_projects,
               max_components := p.max_components })
          | none => (team.billing_plan, limits1)
        else (team.billing_plan, limits1)
      let notifs1 := statusTransitionNotifs team oldStatus newStatus
      let team2 : TeamRec :=
        { team with billing_plan := planAndLimits.1, limits := planAndLimits.2 }
      let teams2 := saveTeam teams team2
      let notifs2 : List BillingNotif :=
        if sub.status == "trialing" then
          match sub.trial_end with
          | some te =>
            let days := Int.fdiv (te - now) 86400
            if days ≤ env.trialEndingNotificationDays then
              team.owners.map (fun o => BillingNotif.trialEnding team.key o days)
            else []
          | none => []
        else []
      (teams2, notifs1 ++ notifs2)

/-- C10: when the matched team's billing_plan_limits carries a parseable
last_updated timestamp less than 60 seconds before now, the handler returns
without persisting any change to any team and without sending any owner
notification, whatever the subscription payload says. -/
theorem c10_recent_update_skipped
    (env : BillingEnv) (teams : List TeamRec) (sub : SubscriptionEvent)
    (now t : Int) (team : TeamRec)
    (hfind : findTeamForSubscription teams sub = some team)
    (hlu : team.limits.last_updated = some (ParsedTime.ok t))
    (hrecent : now - t < 60) :
    handle_subscription_updated env teams sub now = (teams, []) := by
  unfold handle_subscription_updated
  rw [hfind]
  simp [hlu, hrecent]

/-- A concrete team whose billing was updated 30 seconds ago, to witness
C10. -/
def teamC10 : TeamRec :=
  { key := "team1", billing_plan := some "business",
    limits := { stripe_subscription_id := some "sub_1",
                subscription_status := some "active",
                last_updated := some (ParsedTime.ok 1000) },
    owners := ["owner@example.com"] }

/-- A concrete subscription payload for the C10 witness. -/
def subC10 : SubscriptionEvent :=
  { id := "sub_1", customer := some "cus_1", status := "past_due",
    trial_end := none, hasItems := true }

/-- Witness for C10: at 30 seconds after the stored last_updated stamp, the
handler changes nothing and notifies no one, although the payload carries a
past_due transition. -/
theorem c10_witness :
    handle_subscription_updated
      ⟨some ⟨"business", "Business", some 10, some 10, some 10⟩, 3⟩
      [teamC10] subC10 1030 = ([teamC10], []) :=
  c10_recent_update_skipped
    ⟨some ⟨"business", "Business", some 10, some 10, some 10⟩, 3⟩
    [teamC10] subC10 1030 1000 teamC10 rfl rfl (by decide)

end Sbomify
